import Mathlib

/-!
Shallow embedding of the core of a Salesforce MCP server:
target-org resolution with a 30-second cache (src/utils/resolveTargetOrg.ts),
the permission gate (src/config/permissions.ts), the confirmation gate
(src/utils/elicitation.ts), the subprocess runner error mapping
(src/utils/sfCommand.ts) and the `deploy_start` / `execute_anonymous_apex`
tool handlers (src/tools/project.ts, src/tools/records.ts).

JavaScript strings are modelled as Lean `String`, timestamps as `Nat`
milliseconds, external effects (the `sf` CLI fetch, the runner call, the
elicitation round trip) as explicit outcome parameters, and thrown
exceptions as `Except.error`.
-/

namespace SfMcp

/-- Character class trimmed by JavaScript `String.prototype.trim`
(the usual ASCII whitespace; the exotic Unicode space characters play no
role in any property proved here). -/
def isJsWhitespace (c : Char) : Bool :=
  c == ' ' || c == '\t' || c == '\n' || c == '\r' || c == '\x0b' || c == '\x0c'

/-- Remove trailing characters satisfying `p`. -/
def dropTrailing {α : Type} (p : α → Bool) (l : List α) : List α :=
  (l.reverse.dropWhile p).reverse

/-- The character-list body of JavaScript `trim`: strip leading then
trailing whitespace. -/
def trimChars (l : List Char) : List Char :=
  dropTrailing isJsWhitespace (l.dropWhile isJsWhitespace)

/-- Model of JavaScript `String.prototype.trim`. -/
def jsTrim (s : String) : String :=
  ⟨trimChars s.data⟩

/-- Model of JavaScript `String.prototype.includes`. -/
def jsIncludes (s sub : String) : Bool :=
  decide (sub.data <:+: s.data)

/-! ### Idempotence of trimming -/

theorem dropWhile_dropWhile (p : α → Bool) (l : List α) :
    (l.dropWhile p).dropWhile p = l.dropWhile p := by
  induction l with
  | nil => rfl
  | cons a l ih =>
    by_cases h : p a
    · simp [List.dropWhile_cons, h, ih]
    · simp [List.dropWhile_cons, h]

theorem dropWhile_head_false (p : α → Bool) (l : List α) (a : α) (t : List α)
    (h : l.dropWhile p = a :: t) : p a = false := by
  have := List.head_dropWhile_not p l (by simp [h])
  simpa [h] using this

/-- A nonempty result of `dropWhile p` keeps its head even after further
elements are chopped off its tail: leading-trimmed lists need no second
leading trim. -/
theorem dropWhile_eq_self_of_head_false (p : α → Bool) (a : α) (t : List α)
    (h : p a = false) : (a :: t).dropWhile p = a :: t := by
  simp [List.dropWhile_cons, h]

theorem dropTrailing_dropTrailing (p : α → Bool) (l : List α) :
    dropTrailing p (dropTrailing p l) = dropTrailing p l := by
  unfold dropTrailing
  rw [List.reverse_reverse, dropWhile_dropWhile]

/-- `dropTrailing` keeps a prefix of its argument. -/
theorem dropTrailing_prefix (p : α → Bool) (l : List α) :
    ∃ r, l = dropTrailing p l ++ r := by
  refine ⟨(l.reverse.takeWhile p).reverse, ?_⟩
  unfold dropTrailing
  have h := List.takeWhile_append_dropWhile (p := p) (l := l.reverse)
  calc l = l.reverse.reverse := by rw [List.reverse_reverse]
    _ = (l.reverse.takeWhile p ++ l.reverse.dropWhile p).reverse := by rw [h]
    _ = (l.reverse.dropWhile p).reverse ++ (l.reverse.takeWhile p).reverse := by
        rw [List.reverse_append]

theorem trimChars_idem (l : List Char) : trimChars (trimChars l) = trimChars l := by
  unfold trimChars
  set p := isJsWhitespace with hp
  set m := l.dropWhile p with hm
  -- the trimmed list is a prefix of `m`, whose head (if any) fails `p`
  obtain ⟨r, hr⟩ := dropTrailing_prefix p m
  have hlead : (dropTrailing p m).dropWhile p = dropTrailing p m := by
    cases hT : dropTrailing p m with
    | nil => rfl
    | cons a t =>
      have ha : p a = false := by
        have hm' : m.dropWhile p = m := by rw [hm, dropWhile_dropWhile]
        have : m = a :: (t ++ r) := by rw [hr, hT]; simp
        exact dropWhile_head_false p m a (t ++ r) (by rw [hm', this])
      exact dropWhile_eq_self_of_head_false p a t ha
  rw [hlead, dropTrailing_dropTrailing]

theorem jsTrim_idem (s : String) : jsTrim (jsTrim s) = jsTrim s := by
  unfold jsTrim
  exact congrArg String.mk (trimChars_idem s.data)

theorem jsTrim_empty : jsTrim "" = "" := rfl

theorem jsTrim_ne_empty_of_arg (s : String) (h : jsTrim s ≠ "") : s ≠ "" := by
  intro hs
  exact h (by rw [hs]; rfl)

/-! ### Permission gate (src/config/permissions.ts)

```ts
constructor() {
    const allowedOrgsEnv = process.env.ALLOWED_ORGS || "ALL";
    this.config = {
        readOnly: process.env.READ_ONLY === "true",
        allowedOrgs:
            allowedOrgsEnv === "ALL"
                ? "ALL"
                : allowedOrgsEnv.split(",").map((org) => org.trim()),
    };
}
isReadOnly(): boolean { return this.config.readOnly; }
isOrgAllowed(targetOrg: string): boolean {
    const allowed =
        this.config.allowedOrgs === "ALL" ||
        this.config.allowedOrgs.includes(targetOrg);
    ...
    return allowed;
}
```
-/

/-- `string[] | "ALL"` -/
inductive AllowedOrgs where
  | all
  | list (orgs : List String)
deriving DecidableEq, Repr

structure PermissionConfig where
  readOnly : Bool
  allowedOrgs : AllowedOrgs
deriving DecidableEq, Repr

/-- `PermissionsManager` constructor, from the two environment variables
(`none` = variable unset; JavaScript `||` treats the empty string as unset). -/
def mkPermissionConfig (allowedOrgsEnv? readOnlyEnv? : Option String) :
    PermissionConfig :=
  let allowedOrgsEnv :=
    match allowedOrgsEnv? with
    | some s => if s != "" then s else "ALL"
    | none => "ALL"
  { readOnly := readOnlyEnv? == some "true"
    allowedOrgs :=
      if allowedOrgsEnv == "ALL" then .all
      else .list ((allowedOrgsEnv.splitOn ",").map jsTrim) }

def isReadOnly (c : PermissionConfig) : Bool := c.readOnly

/-- `PermissionsManager.isOrgAllowed`: `Array.prototype.includes` is exact
(`===`) element equality. -/
def isOrgAllowed (a : AllowedOrgs) (targetOrg : String) : Bool :=
  match a with
  | .all => true
  | .list orgs => orgs.contains targetOrg

/-! ### Target resolver (src/utils/resolveTargetOrg.ts)

```ts
let cachedDefaultOrg: string | null = null;
let cacheTimestamp: number = 0;
const CACHE_TTL_MS = 30_000;

export async function resolveTargetOrg(targetOrg?: string): Promise<string> {
    if (targetOrg && targetOrg.trim() !== "") { return targetOrg; }
    const now = Date.now();
    if (cachedDefaultOrg && now - cacheTimestamp < CACHE_TTL_MS) {
        return cachedDefaultOrg;
    }
    try {
        const result = await executeSfCommand("sf config get target-org --json");
        const value = result?.result?.[0]?.value;
        if (value && typeof value === "string" && value.trim() !== "") {
            cachedDefaultOrg = value.trim();
            cacheTimestamp = now;
            return cachedDefaultOrg;
        }
    } catch { }
    throw new Error("No target org specified and no default org is configured. ...");
}
```

The module-level mutable cache is threaded as an explicit `OrgCache` value;
the outcome of the `executeSfCommand` fetch is an explicit parameter
(`Except.error` = the promise rejected; `.ok none` = no usable string value
at `result?.result?.[0]?.value`; `.ok (some s)` = that value is the string
`s`, JS-truthy only when nonempty); the `fetched` flag records whether
`executeSfCommand` was invoked by this call.
-/

structure OrgCache where
  cachedDefaultOrg : Option String
  cacheTimestamp : Nat
deriving DecidableEq, Repr

def CACHE_TTL_MS : Nat := 30000

instance exceptDecEq {ε α : Type} [DecidableEq ε] [DecidableEq α] :
    DecidableEq (Except ε α) := fun a b =>
  match a, b with
  | .ok x, .ok y =>
    if h : x = y then .isTrue (by rw [h]) else .isFalse (by simp [h])
  | .error x, .error y =>
    if h : x = y then .isTrue (by rw [h]) else .isFalse (by simp [h])
  | .ok _, .error _ => .isFalse (by simp)
  | .error _, .ok _ => .isFalse (by simp)

structure ResolveOut where
  outcome : Except String String
  state : OrgCache
  fetched : Bool
deriving DecidableEq, Repr

def noTargetMsg : String :=
  "No target org specified and no default org is configured. " ++
    "Either provide 'targetOrg' or set a default with: sf config set target-org <alias>"

/-- Is the cache entry a JS-truthy value within TTL at time `now`? -/
def cacheFresh (st : OrgCache) (now : Nat) : Bool :=
  match st.cachedDefaultOrg with
  | some c => c != "" && decide (now - st.cacheTimestamp < CACHE_TTL_MS)
  | none => false

/-- The fetch-and-store tail of `resolveTargetOrg` (the `try { ... } catch`
followed by the `throw`). -/
def tryFetchDefault (now : Nat) (fetch : Except Unit (Option String))
    (st : OrgCache) : ResolveOut :=
  match fetch with
  | .ok (some s) =>
    if s != "" && jsTrim s != "" then
      ⟨.ok (jsTrim s), ⟨some (jsTrim s), now⟩, true⟩
    else ⟨.error noTargetMsg, st, true⟩
  | .ok none => ⟨.error noTargetMsg, st, true⟩
  | .error _ => ⟨.error noTargetMsg, st, true⟩

def resolveTargetOrg (targetOrg? : Option String) (now : Nat)
    (fetch : Except Unit (Option String)) (st : OrgCache) : ResolveOut :=
  match targetOrg? with
  | some s =>
    if s != "" && jsTrim s != "" then ⟨.ok s, st, false⟩
    else if cacheFresh st now then
      ⟨.ok (st.cachedDefaultOrg.getD ""), st, false⟩
    else tryFetchDefault now fetch st
  | none =>
    if cacheFresh st now then
      ⟨.ok (st.cachedDefaultOrg.getD ""), st, false⟩
    else tryFetchDefault now fetch st

/-- `clearDefaultOrgCache`: resets value to `null` and timestamp to `0`. -/
def clearDefaultOrgCache (_st : OrgCache) : OrgCache :=
  ⟨none, 0⟩

structure GetDefaultOut where
  value : Option String
  state : OrgCache
  fetched : Bool
deriving DecidableEq, Repr

/-- `getDefaultOrg`: same lookup/cache logic as `resolveTargetOrg` with no
explicit target, but returns `null` instead of throwing. -/
def getDefaultOrg (now : Nat) (fetch : Except Unit (Option String))
    (st : OrgCache) : GetDefaultOut :=
  if cacheFresh st now then
    ⟨st.cachedDefaultOrg, st, false⟩
  else
    match fetch with
    | .ok (some s) =>
      if s != "" && jsTrim s != "" then
        ⟨some (jsTrim s), ⟨some (jsTrim s), now⟩, true⟩
      else ⟨none, st, true⟩
    | .ok none => ⟨none, st, true⟩
    | .error _ => ⟨none, st, true⟩

/-! ### Confirmation gate (src/utils/elicitation.ts)

```ts
export async function requestConfirmation(message) {
    if (!serverInstance) return { confirmed: true };
    const capabilities = serverInstance.server.getClientCapabilities();
    if (!capabilities?.elicitation) return { confirmed: true };
    try {
        const result = await serverInstance.server.elicitInput({...});
        if (result.action === "accept" && result.content?.confirm === true) {
            return { confirmed: true };
        }
        if (result.action === "decline") {
            return { confirmed: false, message: "Operation declined by user" };
        }
        return { confirmed: false, message: "Operation cancelled by user" };
    } catch {
        return { confirmed: true };
    }
}
```
-/

/-- A JavaScript value as far as the envelopes and elicitation content
distinguish one: a string, a boolean, or anything else. -/
inductive JsVal where
  | s (v : String)
  | b (v : Bool)
  | other
deriving DecidableEq, Repr

/-- The fields of a JSON object literal, in order. -/
abbrev JsObj := List (String × JsVal)

/-- The client's `ElicitResult`: the `action` string and the value found at
`result.content?.confirm` (`none` when absent). -/
structure ElicitResult where
  action : String
  confirm : Option JsVal
deriving DecidableEq, Repr

structure ConfirmOut where
  confirmed : Bool
  message : Option String
  /-- Whether `elicitInput` (a client round trip) was attempted. -/
  elicited : Bool
deriving DecidableEq, Repr

def declinedMsg : String := "Operation declined by user"
def cancelledMsg : String := "Operation cancelled by user"

/-- `requestConfirmation`, as a pure function of `serverInstance` being set,
the client capability check `capabilities?.elicitation`, and the outcome of
the `elicitInput` round trip (`Except.error` = the awaited promise threw). -/
def requestConfirmation (serverSet clientHasElicitation : Bool)
    (elicit : Except Unit ElicitResult) : ConfirmOut :=
  if !serverSet then ⟨true, none, false⟩
  else if !clientHasElicitation then ⟨true, none, false⟩
  else
    match elicit with
    | .error _ => ⟨true, none, true⟩
    | .ok r =>
      if r.action == "accept" && r.confirm == some (.b true) then
        ⟨true, none, true⟩
      else if r.action == "decline" then ⟨false, some declinedMsg, true⟩
      else ⟨false, some cancelledMsg, true⟩

/-! ### Runner error mapping (src/utils/sfCommand.ts, `executeSfCommand`)

```ts
(error, stdout, stderr) => {
    if (error) {
        if (error.message.includes("command not found") ||
            error.message.includes("is not recognized")) {
            reject(new Error("Salesforce CLI (sf) not found. ...")); return;
        }
        if (stdout && stdout.trim().length > 0) {
            try { resolve(JSON.parse(stdout)); return; } catch (parseError) {}
        }
        reject(error); return;
    }
    if (stderr && !stderr.includes("Warning")) {
        reject(new Error(stderr)); return;
    }
    try { resolve(JSON.parse(stdout)); } catch (parseError) { reject(parseError); }
}
```
`JSON.parse` is an external library routine, passed in as an oracle
`parse : String → Option JsObj` (`none` = it threw).
-/

/-- The distinguishable rejections of `executeSfCommand`. -/
inductive SfReject where
  /-- `new Error("Salesforce CLI (sf) not found. ...")` -/
  | cliNotFound
  /-- `reject(error)`: the original exec error, carrying its message. -/
  | execError (msg : String)
  /-- `reject(new Error(stderr))` -/
  | stderrError (stderr : String)
  /-- `reject(parseError)` -/
  | parseError
deriving DecidableEq, Repr

/-- The `exec` callback of `executeSfCommand`, as a pure function of the
child-process outcome (`error?` = the exec error's message when the process
errored, else `none`) and the two output streams. -/
def executeSfCommand (error? : Option String) (stdout stderr : String)
    (parse : String → Option JsObj) : Except SfReject JsObj :=
  match error? with
  | some msg =>
    if jsIncludes msg "command not found" || jsIncludes msg "is not recognized" then
      .error .cliNotFound
    else if stdout != "" && decide ((jsTrim stdout).length > 0) then
      match parse stdout with
      | some r => .ok r
      | none => .error (.execError msg)
    else .error (.execError msg)
  | none =>
    if stderr != "" && !jsIncludes stderr "Warning" then
      .error (.stderrError stderr)
    else
      match parse stdout with
      | some r => .ok r
      | none => .error .parseError

/-! ### Tool handlers (src/tools/project.ts `deploy_start`,
src/tools/records.ts `execute_anonymous_apex`)

Both handlers follow the same pipeline, verbatim from the source:

```ts
async ({ input }, extra) => {
    let targetOrg: string;
    try { targetOrg = await resolveTargetOrg(input.targetOrg); }
    catch (error) { return envelope({ success: false, message: error.message }); }
    if (permissions.isReadOnly()) { return envelope({ success: false,
        compiled: false, compileProblem: "Operation not allowed: ..." }); }
    if (!permissions.isOrgAllowed(targetOrg)) { return envelope(/* denial */); }
    const result = await runner(targetOrg, ...);   // NOT inside try/catch
    return envelope({ targetOrg, ...result });
}
```

Neither handler contains a call to `requestConfirmation`; the
`confirmRequested` flag below records that no path requests confirmation.
The runner call sits outside any `try`, so a runner rejection escapes the
handler: `envelope? = Except.error msg` models that escaped exception.
-/

structure HandlerOut where
  /-- `.ok fields` = the handler returned `JSON.stringify(fields)` inside a
  text content block; `.error msg` = an exception escaped the handler. -/
  envelope? : Except String JsObj
  state : OrgCache
  /-- Did target resolution invoke `executeSfCommand`? -/
  resolveFetched : Bool
  /-- Was the operation's own external call (`deployStart` /
  `executeAnonymousApex`) invoked? -/
  runnerCalled : Bool
  /-- Was `requestConfirmation` invoked? (No call exists in either handler.) -/
  confirmRequested : Bool
deriving DecidableEq, Repr

def readOnlyDeployMsg : String :=
  "Operation not allowed: Cannot generate components in READ_ONLY mode"
def readOnlyApexMsg : String :=
  "Operation not allowed: Cannot execute anonymous Apex in READ_ONLY mode"
def accessDeniedMsg (targetOrg : String) : String :=
  "Access denied: Org '" ++ targetOrg ++ "' is not in the allowed list"

/-- The `deploy_start` handler (src/tools/project.ts lines 127–211).
`runner` is the outcome of `deployStart(targetOrg, dryRun, ...)`
(`.error` = it rejected). `dryRun` only alters the command string built by
`deployStart`, never the handler's control flow. -/
def deployStartHandler (perm : PermissionConfig) (targetOrg? : Option String)
    (_dryRun : Bool) (now : Nat) (fetch : Except Unit (Option String))
    (runner : Except String JsObj) (st : OrgCache) : HandlerOut :=
  let r := resolveTargetOrg targetOrg? now fetch st
  match r.outcome with
  | .error msg =>
    ⟨.ok [("success", .b false), ("message", .s msg)], r.state, r.fetched,
      false, false⟩
  | .ok targetOrg =>
    if isReadOnly perm then
      ⟨.ok [("success", .b false), ("compiled", .b false),
        ("compileProblem", .s readOnlyDeployMsg)], r.state, r.fetched,
        false, false⟩
    else if !isOrgAllowed perm.allowedOrgs targetOrg then
      ⟨.ok [("success", .b false),
        ("message", .s (accessDeniedMsg targetOrg))], r.state, r.fetched,
        false, false⟩
    else
      match runner with
      | .error e => ⟨.error e, r.state, r.fetched, true, false⟩
      | .ok result =>
        ⟨.ok (("targetOrg", .s targetOrg) :: result), r.state, r.fetched,
          true, false⟩

/-- The `execute_anonymous_apex` handler (src/tools/records.ts lines
584–645). Identical pipeline; its denial envelopes use `compileProblem`
for the access-denied case too. -/
def executeAnonymousApexHandler (perm : PermissionConfig)
    (targetOrg? : Option String) (now : Nat)
    (fetch : Except Unit (Option String)) (runner : Except String JsObj)
    (st : OrgCache) : HandlerOut :=
  let r := resolveTargetOrg targetOrg? now fetch st
  match r.outcome with
  | .error msg =>
    ⟨.ok [("success", .b false), ("message", .s msg)], r.state, r.fetched,
      false, false⟩
  | .ok targetOrg =>
    if isReadOnly perm then
      ⟨.ok [("success", .b false), ("compiled", .b false),
        ("compileProblem", .s readOnlyApexMsg)], r.state, r.fetched,
        false, false⟩
    else if !isOrgAllowed perm.allowedOrgs targetOrg then
      ⟨.ok [("success", .b false), ("compiled", .b false),
        ("compileProblem", .s (accessDeniedMsg targetOrg))], r.state,
        r.fetched, false, false⟩
    else
      match runner with
      | .error e => ⟨.error e, r.state, r.fetched, true, false⟩
      | .ok result =>
        ⟨.ok (("targetOrg", .s targetOrg) :: result), r.state, r.fetched,
          true, false⟩

/-! ## Theorems -/

/-- C2: `isOrgAllowed` returns true on the "allow all" sentinel; otherwise
true iff the target exactly equals one entry of the allow-list (no alias
expansion, no trimming of the queried target); in particular for allow-list
`["a","b"]`, `"a"` and `"b"` are allowed and `"c"` is not. -/
theorem allowlist_exact_match :
    (∀ t : String, isOrgAllowed .all t = true) ∧
    (∀ (orgs : List String) (t : String),
      isOrgAllowed (.list orgs) t = true ↔ t ∈ orgs) ∧
    isOrgAllowed (.list ["a", "b"]) "a" = true ∧
    isOrgAllowed (.list ["a", "b"]) "b" = true ∧
    isOrgAllowed (.list ["a", "b"]) "c" = false := by
  refine ⟨fun t => rfl, fun orgs t => ?_, by decide, by decide, by decide⟩
  simp [isOrgAllowed]

/-- C7: a JS-truthy explicit target that is nonempty after trimming is
returned unchanged; no fetch happens and the cache entry (value and
timestamp) is untouched, whatever the cache state. -/
theorem explicit_target_no_fetch (s : String) (now : Nat)
    (fetch : Except Unit (Option String)) (st : OrgCache)
    (h : jsTrim s ≠ "") :
    resolveTargetOrg (some s) now fetch st = ⟨.ok s, st, false⟩ := by
  have hs : s ≠ "" := jsTrim_ne_empty_of_arg s h
  simp [resolveTargetOrg, hs, h]

theorem explicit_target_no_fetch_witness :
    jsTrim "orgA" ≠ "" ∧
    resolveTargetOrg (some "orgA") 5 (.error ()) ⟨some "cached", 3⟩
      = ⟨.ok "orgA", ⟨some "cached", 3⟩, false⟩ :=
  ⟨by decide,
    explicit_target_no_fetch "orgA" 5 (.error ()) ⟨some "cached", 3⟩ (by decide)⟩

/-- C10: when the child process exits without an error but writes a
non-empty stderr that does not contain `"Warning"`, `executeSfCommand`
rejects with an error carrying the stderr text instead of resolving with
the command's stdout. -/
theorem stderr_rejects_despite_success (stdout stderr : String)
    (parse : String → Option JsObj)
    (h1 : stderr ≠ "") (h2 : jsIncludes stderr "Warning" = false) :
    executeSfCommand none stdout stderr parse = .error (.stderrError stderr) := by
  simp [executeSfCommand, h1, h2]

theorem stderr_rejects_despite_success_witness :
    ("ERROR boom" ≠ "" ∧ jsIncludes "ERROR boom" "Warning" = false) ∧
    executeSfCommand none "{}" "ERROR boom" (fun _ => some [])
      = .error (.stderrError "ERROR boom") :=
  ⟨⟨by decide, by decide⟩,
    stderr_rejects_despite_success "{}" "ERROR boom" (fun _ => some [])
      (by decide) (by decide)⟩

/-- C5: `requestConfirmation` auto-approves (with no client round trip)
when the client lacks the elicitation capability; yields the "declined"
failure exactly when the client's action is `"decline"`; yields the
"cancelled" failure for every other non-consenting outcome; and
auto-approves when the elicitation round trip throws. -/
theorem confirmation_gate_semantics :
    (∀ (serverSet : Bool) (elicit : Except Unit ElicitResult),
      requestConfirmation serverSet false elicit = ⟨true, none, false⟩) ∧
    (∀ r : ElicitResult,
      requestConfirmation true true (.ok r) = ⟨false, some declinedMsg, true⟩
        ↔ r.action = "decline") ∧
    (∀ r : ElicitResult, r.action ≠ "decline" →
      ¬(r.action = "accept" ∧ r.confirm = some (.b true)) →
      requestConfirmation true true (.ok r) = ⟨false, some cancelledMsg, true⟩) ∧
    requestConfirmation true true (.error ()) = ⟨true, none, true⟩ := by
  refine ⟨fun serverSet elicit => ?_, fun r => ?_, fun r h1 h2 => ?_, rfl⟩
  · cases serverSet <;> rfl
  · constructor
    · intro h
      by_cases ha : (r.action == "accept" && r.confirm == some (.b true)) = true
      · simp [requestConfirmation, ha] at h
      · by_cases hd : (r.action == "decline") = true
        · simpa using hd
        · simp [requestConfirmation, ha, hd, declinedMsg, cancelledMsg] at h
    · intro h
      have ha : (r.action == "accept" && r.confirm == some (.b true)) = false := by
        simp [h]
      simp [requestConfirmation, ha, h]
  · have ha : (r.action == "accept" && r.confirm == some (.b true)) = false := by
      by_cases hac : r.action = "accept"
      · have hc : r.confirm ≠ some (.b true) := fun hc => h2 ⟨hac, hc⟩
        simp [hc]
      · simp [hac]
    have hd : (r.action == "decline") = false := by simp [h1]
    simp [requestConfirmation, ha, hd]

theorem confirmation_gate_semantics_witness :
    requestConfirmation false false (.error ()) = ⟨true, none, false⟩ ∧
    (requestConfirmation true true (.ok ⟨"decline", none⟩)
        = ⟨false, some declinedMsg, true⟩ ↔
      (ElicitResult.mk "decline" none).action = "decline") ∧
    (("cancel" : String) ≠ "decline" ∧
      ¬(("cancel" : String) = "accept" ∧
        (some (JsVal.b false) : Option JsVal) = some (.b true)) ∧
      requestConfirmation true true (.ok ⟨"cancel", some (.b false)⟩)
        = ⟨false, some cancelledMsg, true⟩) :=
  ⟨confirmation_gate_semantics.1 false (.error ()),
    confirmation_gate_semantics.2.1 ⟨"decline", none⟩,
    by decide, by decide,
    confirmation_gate_semantics.2.2.1 ⟨"cancel", some (.b false)⟩
      (by decide) (by decide)⟩

theorem tryFetchDefault_fetched (now : Nat) (fetch : Except Unit (Option String))
    (st : OrgCache) : (tryFetchDefault now fetch st).fetched = true := by
  unfold tryFetchDefault
  rcases fetch with _ | v
  · rfl
  · rcases v with _ | s
    · rfl
    · by_cases h : (s != "" && jsTrim s != "") = true <;> simp [h]

/-- C6: after a call with no explicit target completes a successful fetch at
time `t`, a later call starting at `t'` returns the identical cached value
without invoking `executeSfCommand` (whatever that call's fetch would have
produced) and leaves the cache untouched if `t' - t < 30000`; if
`t' - t ≥ 30000` the later call performs a new fetch. -/
theorem cache_ttl (st₀ : OrgCache) (s v : String) (t t' : Nat)
    (fetch' : Except Unit (Option String))
    (h1 : (resolveTargetOrg none t (.ok (some s)) st₀).fetched = true)
    (h2 : (resolveTargetOrg none t (.ok (some s)) st₀).outcome = .ok v) :
    (t' - t < CACHE_TTL_MS →
      resolveTargetOrg none t' fetch'
          (resolveTargetOrg none t (.ok (some s)) st₀).state
        = ⟨.ok v, (resolveTargetOrg none t (.ok (some s)) st₀).state, false⟩) ∧
    (CACHE_TTL_MS ≤ t' - t →
      (resolveTargetOrg none t' fetch'
          (resolveTargetOrg none t (.ok (some s)) st₀).state).fetched = true) := by
  by_cases hf : cacheFresh st₀ t = true
  · simp [resolveTargetOrg, hf] at h1
  · simp only [resolveTargetOrg, hf, if_false, Bool.false_eq_true] at h1 h2 ⊢
    by_cases hg : (s != "" && jsTrim s != "") = true
    · simp only [tryFetchDefault, hg, if_true] at h2 ⊢
      have hv : v = jsTrim s := by
        simpa using h2.symm
      have htrim : jsTrim s ≠ "" := by
        have := hg
        simp only [Bool.and_eq_true, bne_iff_ne, ne_eq] at this
        exact this.2
      constructor
      · intro hlt
        have hfresh : cacheFresh ⟨some (jsTrim s), t⟩ t' = true := by
          simp [cacheFresh, CACHE_TTL_MS]
          exact ⟨htrim, by simpa [CACHE_TTL_MS] using hlt⟩
        simp [resolveTargetOrg, hfresh, hv]
      · intro hge
        have hge' : 30000 ≤ t' - t := by simpa [CACHE_TTL_MS] using hge
        have hstale : cacheFresh ⟨some (jsTrim s), t⟩ t' = false := by
          simp [cacheFresh, CACHE_TTL_MS]
          intro _
          omega
        rw [hstale]
        simp only [Bool.false_eq_true, if_false]
        exact tryFetchDefault_fetched t' fetch' ⟨some (jsTrim s), t⟩
    · simp [tryFetchDefault, hg] at h2


theorem cache_ttl_witness :
    ((resolveTargetOrg none 1000 (.ok (some " sandbox1 ")) ⟨none, 0⟩).fetched = true ∧
      (resolveTargetOrg none 1000 (.ok (some " sandbox1 ")) ⟨none, 0⟩).outcome
        = .ok "sandbox1") ∧
    (1500 - 1000 < CACHE_TTL_MS ∧
      resolveTargetOrg none 1500 (.error ())
          (resolveTargetOrg none 1000 (.ok (some " sandbox1 ")) ⟨none, 0⟩).state
        = ⟨.ok "sandbox1",
            (resolveTargetOrg none 1000 (.ok (some " sandbox1 ")) ⟨none, 0⟩).state,
            false⟩) ∧
    (CACHE_TTL_MS ≤ 31000 - 1000 ∧
      (resolveTargetOrg none 31000 (.error ())
          (resolveTargetOrg none 1000 (.ok (some " sandbox1 ")) ⟨none, 0⟩).state).fetched
        = true) :=
  ⟨⟨by decide, by decide⟩,
    ⟨by decide,
      (cache_ttl ⟨none, 0⟩ " sandbox1 " "sandbox1" 1000 1500 (.error ())
        (by decide) (by decide)).1 (by decide)⟩,
    ⟨by decide,
      (cache_ttl ⟨none, 0⟩ " sandbox1 " "sandbox1" 1000 31000 (.error ())
        (by decide) (by decide)).2 (by decide)⟩⟩

/-- Well-formedness of a cache entry: the value is absent, or a nonempty
string that equals its own trim. -/
def cacheWF (st : OrgCache) : Bool :=
  match st.cachedDefaultOrg with
  | none => true
  | some v => v != "" && jsTrim v == v

theorem tryFetchDefault_wf (now : Nat) (fetch : Except Unit (Option String))
    (st : OrgCache) (h : cacheWF st = true) :
    cacheWF (tryFetchDefault now fetch st).state = true := by
  unfold tryFetchDefault
  rcases fetch with _ | v
  · exact h
  · rcases v with _ | s
    · exact h
    · by_cases hg : (s != "" && jsTrim s != "") = true
      · have htrim : jsTrim s ≠ "" := by
          have := hg
          simp only [Bool.and_eq_true, bne_iff_ne, ne_eq] at this
          exact this.2
        simp [hg, cacheWF, htrim, jsTrim_idem]
      · simp [hg, h]

/-- C9: in every reachable state the cached default-org value is `null` or a
nonempty string equal to its own trim; the initial state is well formed,
`resolveTargetOrg` and `getDefaultOrg` preserve well-formedness,
`clearDefaultOrgCache` resets value to `null` and timestamp to `0`, a cached
empty string is treated as a miss (the next default resolution fetches), and
a value served from the cache is nonempty and equal to its own trim. -/
theorem cache_wellformed :
    cacheWF ⟨none, 0⟩ = true ∧
    (∀ (o? : Option String) (now : Nat) (fetch : Except Unit (Option String))
        (st : OrgCache), cacheWF st = true →
      cacheWF (resolveTargetOrg o? now fetch st).state = true) ∧
    (∀ (now : Nat) (fetch : Except Unit (Option String)) (st : OrgCache),
      cacheWF st = true → cacheWF (getDefaultOrg now fetch st).state = true) ∧
    (∀ st : OrgCache, clearDefaultOrgCache st = ⟨none, 0⟩) ∧
    (∀ (now ts : Nat) (fetch : Except Unit (Option String)),
      (resolveTargetOrg none now fetch ⟨some "", ts⟩).fetched = true) ∧
    (∀ (now : Nat) (fetch : Except Unit (Option String)) (st : OrgCache)
        (v : String), cacheWF st = true →
      (resolveTargetOrg none now fetch st).fetched = false →
      (resolveTargetOrg none now fetch st).outcome = .ok v →
      v ≠ "" ∧ jsTrim v = v) := by
  refine ⟨rfl, ?_, ?_, fun st => rfl, ?_, ?_⟩
  · intro o? now fetch st h
    rcases o? with _ | s
    · by_cases hf : cacheFresh st now = true
      · simpa [resolveTargetOrg, hf] using h
      · simpa [resolveTargetOrg, hf] using tryFetchDefault_wf now fetch st h
    · by_cases hs : (s != "" && jsTrim s != "") = true
      · simpa [resolveTargetOrg, hs] using h
      · by_cases hf : cacheFresh st now = true
        · simpa [resolveTargetOrg, hs, hf] using h
        · simpa [resolveTargetOrg, hs, hf] using tryFetchDefault_wf now fetch st h
  · intro now fetch st h
    by_cases hf : cacheFresh st now = true
    · simpa [getDefaultOrg, hf] using h
    · unfold getDefaultOrg
      rw [if_neg hf]
      rcases fetch with _ | v
      · exact h
      · rcases v with _ | s
        · exact h
        · by_cases hg : (s != "" && jsTrim s != "") = true
          · have htrim : jsTrim s ≠ "" := by
              have := hg
              simp only [Bool.and_eq_true, bne_iff_ne, ne_eq] at this
              exact this.2
            simp [hg, cacheWF, htrim, jsTrim_idem]
          · simp [hg, h]
  · intro now ts fetch
    have hf : cacheFresh ⟨some "", ts⟩ now = false := by
      simp [cacheFresh]
    have heq : resolveTargetOrg none now fetch ⟨some "", ts⟩
        = tryFetchDefault now fetch ⟨some "", ts⟩ := by
      simp [resolveTargetOrg, hf]
    rw [heq]
    exact tryFetchDefault_fetched now fetch ⟨some "", ts⟩
  · intro now fetch st v h hnf hok
    by_cases hf : cacheFresh st now = true
    · rcases hc : st.cachedDefaultOrg with _ | c
      · simp [cacheFresh, hc] at hf
      · have hv : v = c := by
          simp [resolveTargetOrg, hf, hc] at hok
          exact hok.symm
        have hcne : c ≠ "" := by
          simp [cacheFresh, hc] at hf
          exact hf.1
        have hwf : jsTrim c = c := by
          simp [cacheWF, hc] at h
          exact h.2
        exact ⟨hv ▸ hcne, hv ▸ hwf⟩
    · have heq : resolveTargetOrg none now fetch st = tryFetchDefault now fetch st := by
        simp [resolveTargetOrg, hf]
      rw [heq] at hnf
      rw [tryFetchDefault_fetched now fetch st] at hnf
      exact absurd hnf (by simp)

theorem cache_wellformed_witness :
    (cacheWF ⟨some "prod", 0⟩ = true ∧
      cacheWF (resolveTargetOrg none 50000 (.ok (some " dev ")) ⟨some "prod", 0⟩).state
        = true) ∧
    (cacheWF ⟨some "prod", 40000⟩ = true ∧
      (resolveTargetOrg none 41000 (.error ()) ⟨some "prod", 40000⟩).fetched = false ∧
      (resolveTargetOrg none 41000 (.error ()) ⟨some "prod", 40000⟩).outcome
        = .ok "prod" ∧
      "prod" ≠ "" ∧ jsTrim "prod" = "prod") :=
  ⟨⟨by decide,
      cache_wellformed.2.1 none 50000 (.ok (some " dev ")) ⟨some "prod", 0⟩
        (by decide)⟩,
    ⟨by decide, by decide, by decide,
      cache_wellformed.2.2.2.2.2 41000 (.error ()) ⟨some "prod", 40000⟩ "prod"
        (by decide) (by decide) (by decide)⟩⟩

/-- C1 as frozen is false: with `READ_ONLY` set, an invocation of
`deploy_start` with no explicit target and a cold cache still invokes the
External Runner (`executeSfCommand`, fetching the default target) before the
read-only check runs — the claim says the External Runner is never invoked
and that both checks precede any external call. The mutating deploy command
itself is indeed never run and a failure envelope is returned. -/
theorem readonly_external_call_counterexample :
    isReadOnly ⟨true, .all⟩ = true ∧
    (deployStartHandler ⟨true, .all⟩ none false 1000 (.ok (some "sandbox1"))
        (.ok []) ⟨none, 0⟩).resolveFetched = true ∧
    (deployStartHandler ⟨true, .all⟩ none false 1000 (.ok (some "sandbox1"))
        (.ok []) ⟨none, 0⟩).runnerCalled = false := by
  decide

/-- C1 amended: while `isReadOnly()` is true, `deploy_start` and
`execute_anonymous_apex` always return a failure envelope
(`success: false`) and never invoke the operation's own external command;
target resolution may still invoke `executeSfCommand` before the check. -/
theorem readonly_blocks_operation (perm : PermissionConfig)
    (t? : Option String) (dry : Bool) (now : Nat)
    (fetch : Except Unit (Option String)) (runner : Except String JsObj)
    (st : OrgCache) (h : isReadOnly perm = true) :
    ((deployStartHandler perm t? dry now fetch runner st).runnerCalled = false ∧
      ∃ e, (deployStartHandler perm t? dry now fetch runner st).envelope? = .ok e ∧
        ("success", JsVal.b false) ∈ e) ∧
    ((executeAnonymousApexHandler perm t? now fetch runner st).runnerCalled = false ∧
      ∃ e, (executeAnonymousApexHandler perm t? now fetch runner st).envelope?
          = .ok e ∧ ("success", JsVal.b false) ∈ e) := by
  rcases hr : (resolveTargetOrg t? now fetch st).outcome with msg | tgt
  · exact ⟨⟨by simp [deployStartHandler, hr],
      ⟨[("success", .b false), ("message", .s msg)],
        by simp [deployStartHandler, hr], by simp⟩⟩,
      ⟨by simp [executeAnonymousApexHandler, hr],
      ⟨[("success", .b false), ("message", .s msg)],
        by simp [executeAnonymousApexHandler, hr], by simp⟩⟩⟩
  · exact ⟨⟨by simp [deployStartHandler, hr, h],
      ⟨[("success", .b false), ("compiled", .b false),
          ("compileProblem", .s readOnlyDeployMsg)],
        by simp [deployStartHandler, hr, h], by simp⟩⟩,
      ⟨by simp [executeAnonymousApexHandler, hr, h],
      ⟨[("success", .b false), ("compiled", .b false),
          ("compileProblem", .s readOnlyApexMsg)],
        by simp [executeAnonymousApexHandler, hr, h], by simp⟩⟩⟩

theorem readonly_blocks_operation_witness :
    isReadOnly ⟨true, .all⟩ = true ∧
    (deployStartHandler ⟨true, .all⟩ (some "dev") false 0 (.error ()) (.ok [])
        ⟨none, 0⟩).runnerCalled = false ∧
    (executeAnonymousApexHandler ⟨true, .all⟩ (some "dev") 0 (.error ()) (.ok [])
        ⟨none, 0⟩).runnerCalled = false :=
  ⟨rfl,
    (readonly_blocks_operation ⟨true, .all⟩ (some "dev") false 0 (.error ())
      (.ok []) ⟨none, 0⟩ rfl).1.1,
    (readonly_blocks_operation ⟨true, .all⟩ (some "dev") false 0 (.error ())
      (.ok []) ⟨none, 0⟩ rfl).2.1⟩

/-- The key names of the JSON object a handler returned (empty when an
exception escaped). -/
def envelopeKeys (out : HandlerOut) : List String :=
  match out.envelope? with
  | .ok e => e.map Prod.fst
  | .error _ => []

/-- C3 as frozen is false: with read-only mode on, allow-all, no explicit
target, a cold cache and a fetch resolving the default to `"sandbox1"`,
`deploy_start` returns the read-only failure envelope, which carries no
`targetOrg` field at all (Scenario B of the spec expects
`targetOrg: "sandbox1"` in it). -/
theorem envelope_lacks_target_counterexample :
    (resolveTargetOrg none 1000 (.ok (some "sandbox1")) ⟨none, 0⟩).outcome
      = .ok "sandbox1" ∧
    (deployStartHandler ⟨true, .all⟩ none false 1000 (.ok (some "sandbox1"))
        (.ok []) ⟨none, 0⟩).envelope?
      = .ok [("success", .b false), ("compiled", .b false),
          ("compileProblem", .s readOnlyDeployMsg)] ∧
    (envelopeKeys (deployStartHandler ⟨true, .all⟩ none false 1000
        (.ok (some "sandbox1")) (.ok []) ⟨none, 0⟩)).contains "targetOrg"
      = false := by
  decide

/-- C3 amended: after successful target resolution, the SUCCESS envelope of
`deploy_start` and `execute_anonymous_apex` carries the resolved target as
its leading `targetOrg` field; the access-denied failure envelope carries
the resolved target only embedded in its denial text; the read-only failure
envelope does not carry it. -/
theorem target_in_success_envelope (perm : PermissionConfig)
    (t? : Option String) (dry : Bool) (now : Nat)
    (fetch : Except Unit (Option String)) (st : OrgCache) (t : String)
    (hres : (resolveTargetOrg t? now fetch st).outcome = .ok t)
    (hro : isReadOnly perm = false) :
    (isOrgAllowed perm.allowedOrgs t = true →
      ∀ res : JsObj,
        (deployStartHandler perm t? dry now fetch (.ok res) st).envelope?
          = .ok (("targetOrg", .s t) :: res) ∧
        (executeAnonymousApexHandler perm t? now fetch (.ok res) st).envelope?
          = .ok (("targetOrg", .s t) :: res)) ∧
    (isOrgAllowed perm.allowedOrgs t = false →
      ∀ runner : Except String JsObj,
        (deployStartHandler perm t? dry now fetch runner st).envelope?
          = .ok [("success", .b false), ("message", .s (accessDeniedMsg t))] ∧
        (executeAnonymousApexHandler perm t? now fetch runner st).envelope?
          = .ok [("success", .b false), ("compiled", .b false),
              ("compileProblem", .s (accessDeniedMsg t))]) := by
  constructor
  · intro hallow res
    constructor
    · simp [deployStartHandler, hres, hro, hallow]
    · simp [executeAnonymousApexHandler, hres, hro, hallow]
  · intro hdeny runner
    constructor
    · simp [deployStartHandler, hres, hro, hdeny]
    · simp [executeAnonymousApexHandler, hres, hro, hdeny]

theorem target_in_success_envelope_witness :
    ((resolveTargetOrg (some "dev") 0 (.error ()) ⟨none, 0⟩).outcome
        = .ok "dev" ∧
      isReadOnly ⟨false, .list ["prod"]⟩ = false ∧
      isOrgAllowed (AllowedOrgs.list ["prod"]) "dev" = false) ∧
    (deployStartHandler ⟨false, .list ["prod"]⟩ (some "dev") false 0 (.error ())
        (.ok []) ⟨none, 0⟩).envelope?
      = .ok [("success", .b false), ("message", .s (accessDeniedMsg "dev"))] :=
  ⟨⟨by decide, rfl, by decide⟩,
    ((target_in_success_envelope ⟨false, .list ["prod"]⟩ (some "dev") false 0
        (.error ()) ⟨none, 0⟩ "dev" (by decide) rfl).2 (by decide) (.ok [])).1⟩

/-- C4: the claim matches the repository's own CHANGELOG ("deploy_start —
Confirms before deployments, skipped for dry-runs") but not the code: the
`deploy_start` handler contains no call to `requestConfirmation`, so a
non-dry-run deployment reaches the External Runner with no confirmation
round trip ever attempted. Evaluated at the failing input (read-only off,
allow-all, explicit target `"dev"`, `dryRun = false`). -/
theorem deploy_start_never_confirms :
    (deployStartHandler ⟨false, .all⟩ (some "dev") false 0 (.error ()) (.ok [])
        ⟨none, 0⟩).runnerCalled = true ∧
    (deployStartHandler ⟨false, .all⟩ (some "dev") false 0 (.error ()) (.ok [])
        ⟨none, 0⟩).confirmRequested = false ∧
    (deployStartHandler ⟨false, .all⟩ (some "dev") false 0 (.error ()) (.ok [])
        ⟨none, 0⟩).envelope? = .ok [("targetOrg", .s "dev")] := by
  decide

/-- C8 as frozen is false: when the External Runner rejects (here with
`"boom"`), the `deploy_start` handler has no surrounding try/catch, so the
exception escapes the handler instead of being mapped into an envelope. -/
theorem exception_escapes_counterexample :
    (deployStartHandler ⟨false, .all⟩ (some "dev") false 0 (.error ())
        (.error "boom") ⟨none, 0⟩).envelope? = .error "boom" := by
  decide

/-- C8 amended: resolution failures and policy denials always terminate in
a well-formed envelope, and when the runner fulfils so does the success
path; but the one escape hatch is real — an envelope-less outcome happens
exactly when the handler reached the runner and the runner rejected, and
the escaped exception is the runner's own error. -/
theorem handler_exception_characterization (perm : PermissionConfig)
    (t? : Option String) (dry : Bool) (now : Nat)
    (fetch : Except Unit (Option String)) (st : OrgCache) :
    (∀ res : JsObj, ∃ e,
      (deployStartHandler perm t? dry now fetch (.ok res) st).envelope? = .ok e) ∧
    (∀ (runner : Except String JsObj) (m : String),
      (deployStartHandler perm t? dry now fetch runner st).envelope? = .error m →
        runner = .error m ∧
        (deployStartHandler perm t? dry now fetch runner st).runnerCalled = true) ∧
    (∀ res : JsObj, ∃ e,
      (executeAnonymousApexHandler perm t? now fetch (.ok res) st).envelope?
        = .ok e) ∧
    (∀ (runner : Except String JsObj) (m : String),
      (executeAnonymousApexHandler perm t? now fetch runner st).envelope?
          = .error m →
        runner = .error m ∧
        (executeAnonymousApexHandler perm t? now fetch runner st).runnerCalled
          = true) := by
  rcases hr : (resolveTargetOrg t? now fetch st).outcome with msg | tgt
  · refine ⟨fun res => ⟨[("success", .b false), ("message", .s msg)],
        by simp [deployStartHandler, hr]⟩,
      fun runner m hm => absurd hm (by simp [deployStartHandler, hr]),
      fun res => ⟨[("success", .b false), ("message", .s msg)],
        by simp [executeAnonymousApexHandler, hr]⟩,
      fun runner m hm => absurd hm (by simp [executeAnonymousApexHandler, hr])⟩
  · by_cases hro : isReadOnly perm = true
    · refine ⟨fun res => ⟨[("success", .b false), ("compiled", .b false),
            ("compileProblem", .s readOnlyDeployMsg)],
          by simp [deployStartHandler, hr, hro]⟩,
        fun runner m hm => absurd hm (by simp [deployStartHandler, hr, hro]),
        fun res => ⟨[("success", .b false), ("compiled", .b false),
            ("compileProblem", .s readOnlyApexMsg)],
          by simp [executeAnonymousApexHandler, hr, hro]⟩,
        fun runner m hm =>
          absurd hm (by simp [executeAnonymousApexHandler, hr, hro])⟩
    · have hro' : isReadOnly perm = false := by
        cases hx : isReadOnly perm
        · rfl
        · exact absurd hx hro
      by_cases hal : isOrgAllowed perm.allowedOrgs tgt = true
      · refine ⟨fun res => ⟨("targetOrg", .s tgt) :: res,
            by simp [deployStartHandler, hr, hro', hal]⟩,
          fun runner m hm => ?_,
          fun res => ⟨("targetOrg", .s tgt) :: res,
            by simp [executeAnonymousApexHandler, hr, hro', hal]⟩,
          fun runner m hm => ?_⟩
        · rcases runner with e | res
          · simp [deployStartHandler, hr, hro', hal] at hm
            exact ⟨by rw [hm], by simp [deployStartHandler, hr, hro', hal]⟩
          · simp [deployStartHandler, hr, hro', hal] at hm
        · rcases runner with e | res
          · simp [executeAnonymousApexHandler, hr, hro', hal] at hm
            exact ⟨by rw [hm],
              by simp [executeAnonymousApexHandler, hr, hro', hal]⟩
          · simp [executeAnonymousApexHandler, hr, hro', hal] at hm
      · refine ⟨fun res => ⟨[("success", .b false),
              ("message", .s (accessDeniedMsg tgt))],
            by simp [deployStartHandler, hr, hro', hal]⟩,
          fun runner m hm => absurd hm (by simp [deployStartHandler, hr, hro', hal]),
          fun res => ⟨[("success", .b false), ("compiled", .b false),
              ("compileProblem", .s (accessDeniedMsg tgt))],
            by simp [executeAnonymousApexHandler, hr, hro', hal]⟩,
          fun runner m hm =>
            absurd hm (by simp [executeAnonymousApexHandler, hr, hro', hal])⟩

theorem handler_exception_characterization_witness :
    (∃ e, (deployStartHandler ⟨false, .all⟩ (some "dev") false 0 (.error ())
        (.ok []) ⟨none, 0⟩).envelope? = .ok e) ∧
    ((Except.error "boom" : Except String JsObj) = .error "boom" ∧
      (deployStartHandler ⟨false, .all⟩ (some "dev") false 0 (.error ())
          (.error "boom") ⟨none, 0⟩).runnerCalled = true) :=
  ⟨(handler_exception_characterization ⟨false, .all⟩ (some "dev") false 0
      (.error ()) ⟨none, 0⟩).1 [],
    (handler_exception_characterization ⟨false, .all⟩ (some "dev") false 0
      (.error ()) ⟨none, 0⟩).2.1 (.error "boom") "boom" (by decide)⟩
